import Mathlib

/-!
Verification of the bpanel extensibility/presentation slice:
the plugin runtime (`src/webapp/plugins/plugins.js`), the constants
registry (`src/webapp/store/constants/`), the socket event catalog
(`src/webapp/store/constants/sockets.js`) and the footer display
component (`src/webapp/components/Footer/Footer.js`),
shallowly embedded in Lean 4.

JavaScript values are modelled by the inductive `JSVal`; module-level
mutable registry variables become an explicit `RuntimeState` record that
operations take and return; `console.error` side effects are modelled by
returning structured `LogEntry` lists; a JS function that may `throw`
returns `Except JSVal α` (the error payload is the thrown value).
-/

/-- Model of a JavaScript runtime value, rich enough for the plugin
runtime's data flow: `undefined`, `null`, booleans, numbers (integral
model), strings, plain objects as ordered field lists, and arrays. -/
inductive JSVal where
  | undef
  | null
  | bool (b : Bool)
  | num (n : Int)
  | str (s : String)
  | obj (fields : List (String × JSVal))
  | arr (elems : List JSVal)
deriving Repr

/-- JS `typeof` operator restricted to the modelled values.
Note `typeof null === "object"` in JavaScript. -/
def JSVal.typeof : JSVal → String
  | .undef => "undefined"
  | .null => "object"
  | .bool _ => "boolean"
  | .num _ => "number"
  | .str _ => "string"
  | .obj _ => "object"
  | .arr _ => "object"

/-- JS falsiness: `undefined`, `null`, `false`, `0` and `""` are falsy. -/
def JSVal.falsy : JSVal → Bool
  | .undef => true
  | .null => true
  | .bool b => !b
  | .num n => n == 0
  | .str s => s == ""
  | .obj _ => false
  | .arr _ => false

/-- The check `!ret || typeof ret !== 'object'` from the source, negated:
`ret` is truthy and of type `"object"` (a plain object or an array;
`null` is falsy and hence excluded). -/
def JSVal.isObjectLike (v : JSVal) : Bool :=
  !v.falsy && (v.typeof == "object")

/-- Own-field lookup on a JS object; `none` when the value is not an
object or lacks the key (reading such a property yields `undefined`). -/
def JSVal.getField (v : JSVal) (key : String) : Option JSVal :=
  match v with
  | .obj fields => fields.lookup key
  | _ => none

/-- Field lookup defaulting to `undefined`, as a JS property read does. -/
def JSVal.getFieldD (v : JSVal) (key : String) : JSVal :=
  ((v.getField key).getD .undef)

/-- Set a field on an object's ordered field list: an existing key keeps
its position and receives the new value, a new key is appended —
matching JS assignment/`Object.assign` key ordering. -/
def setEntry (fields : List (String × JSVal)) (key : String) (v : JSVal) :
    List (String × JSVal) :=
  match fields with
  | [] => [(key, v)]
  | (k, w) :: rest =>
      if k = key then (k, v) :: rest else (k, w) :: setEntry rest key v

/-- JS property assignment `target[key] = v` on an object value; a
non-object target is returned unchanged (primitive writes are no-ops). -/
def JSVal.setField (v : JSVal) (key : String) (x : JSVal) : JSVal :=
  match v with
  | .obj fields => .obj (setEntry fields key x)
  | other => other

/-- `Object.assign(target, source)` restricted to object arguments:
copies each own field of `source` onto `target` in order. A non-object
source contributes nothing; a non-object target is returned unchanged. -/
def objAssign (target source : JSVal) : JSVal :=
  match source with
  | .obj fields => fields.foldl (fun acc kv => acc.setField kv.1 kv.2) target
  | _ => target

/-- Append an element to a JS array value (`.concat`-style); a
non-array target is returned unchanged. -/
def JSVal.arrPush (v : JSVal) (x : JSVal) : JSVal :=
  match v with
  | .arr elems => .arr (elems ++ [x])
  | other => other

/-- A structured record of one `console.error` call made by the plugin
runtime, carrying the attribution data the source interpolates into its
message strings. -/
inductive LogEntry where
  | metadataError (pluginName : String)
  | missingDependency (dep : String) (childName : Option String)
  | mapperThrew (mount : String) (pluginName : Option String)
  | mapperBadReturn (mount : String) (pluginName : Option String)
  | propsDecoratorError (name : String) (pluginName : Option String)
deriving Repr, DecidableEq

/-- A state or dispatch mapper as stored in the connector registry:
the plugin-supplied function together with the `_pluginName` tag that
`loadPlugins` attaches for error attribution. The function receives
`(state, acc)` (resp. `(dispatch, acc)`) and may throw. -/
structure Mapper where
  fn : JSVal → JSVal → Except JSVal JSVal
  pluginName : Option String

/-- One step of the state-derivation `reduce` inside `connect`
(src/webapp/plugins/plugins.js lines 238-258): `ret` starts as `acc`,
the mapper call is wrapped in `try`/`catch` (so on a throw `ret` keeps
the value `acc`), and then a falsy or non-object `ret` makes the step
`return;` — i.e. yield `undefined` — while a truthy object is returned
as the next accumulator. -/
def connectStateStep (state : JSVal) (acc : JSVal) (m : Mapper) : JSVal :=
  let ret : JSVal :=
    match m.fn state acc with
    | .error _ => acc
    | .ok v => v
  if ret.falsy || ret.typeof != "object" then .undef else ret

/-- The `console.error` calls the state-derivation step makes, in order:
the `catch` block logs a throw attributed to `mapper._pluginName`, and
the object check logs an invalid-return error (both fire when a throw
leaves a non-object `acc` in `ret`). `mount` is the mount-point `name`
interpolated into the messages. -/
def connectStateStepLogs (mount : String) (state : JSVal) (acc : JSVal)
    (m : Mapper) : List LogEntry :=
  let pair : JSVal × List LogEntry :=
    match m.fn state acc with
    | .error _ => (acc, [.mapperThrew mount m.pluginName])
    | .ok v => (v, [])
  if pair.1.falsy || pair.1.typeof != "object" then
    pair.2 ++ [.mapperBadReturn mount m.pluginName]
  else pair.2

/-- One step of the dispatch-derivation `reduce` inside `connect`
(src/webapp/plugins/plugins.js lines 261-282); textually the same logic
as the state step, with the store's `dispatch` in place of `state`. -/
def connectDispatchStep (dispatch : JSVal) (acc : JSVal) (m : Mapper) : JSVal :=
  let ret : JSVal :=
    match m.fn dispatch acc with
    | .error _ => acc
    | .ok v => v
  if ret.falsy || ret.typeof != "object" then .undef else ret

/-- The `console.error` calls of the dispatch-derivation step, mirroring
`connectStateStepLogs` (the source even reuses the `mapNameState`
message text in the dispatch branch). -/
def connectDispatchStepLogs (mount : String) (dispatch : JSVal) (acc : JSVal)
    (m : Mapper) : List LogEntry :=
  let pair : JSVal × List LogEntry :=
    match m.fn dispatch acc with
    | .error _ => (acc, [.mapperThrew mount m.pluginName])
    | .ok v => (v, [])
  if pair.1.falsy || pair.1.typeof != "object" then
    pair.2 ++ [.mapperBadReturn mount m.pluginName]
  else pair.2

/-- The full state derivation `connect` builds for a mount point: the
registered state mappers folded left-to-right over the container's
`stateFn(state)`. -/
def deriveState (stateFn : JSVal → JSVal) (mappers : List Mapper)
    (state : JSVal) : JSVal :=
  mappers.foldl (connectStateStep state) (stateFn state)

/-- The state derivation in the exception monad: each fold step is the
source's `try`/`catch`-wrapped body, so the only way an exception could
reach the caller is a step re-raising — which the catch-all prevents.
`Except.ok` results witness non-propagation. -/
def deriveStateE (stateFn : JSVal → JSVal) (mappers : List Mapper)
    (state : JSVal) : Except JSVal JSVal :=
  mappers.foldlM (fun acc m => Except.ok (connectStateStep state acc m))
    (stateFn state)

/-- A redux-style middleware as a plugin supplies it:
`store => next => action => result`. -/
def MW : Type := JSVal → (JSVal → JSVal) → JSVal → JSVal

/-- A raw (untagged) state/dispatch mapper function as exported by a
plugin; `loadPlugins` tags it with the plugin name when registering. -/
def MapperFn : Type := JSVal → JSVal → Except JSVal JSVal

/-- A prop-getter decorator: `(parentProps, acc, ...fnArgs)`, possibly
throwing. -/
def PropFn : Type := JSVal → JSVal → List JSVal → Except JSVal JSVal

/-- A reducer decorator: `(state, action) => state`. -/
def RedFn : Type := JSVal → JSVal → JSVal

/-- A constants-namespace transform contributed via
`addSocketsConstants`. -/
def ConstFn : Type := JSVal → JSVal

/-- A `decoratePlugin` child decorator handed to the target plugin's own
`decorator` capability. -/
def DecFn : Type := JSVal → JSVal

/-- `plugin.metadata`: `{ name, pluginVersion }`. -/
structure PluginMeta where
  name : String
  pluginVersion : String
deriving Repr, DecidableEq

/-- A plugin module as a descriptor of optional capability exports
(the source discovers them by duck-typed presence checks; `none` models
an absent export). `getRouteProps` and `decoratePlugin` are objects
iterated with `for ... in`, modelled as ordered key/value lists. -/
structure Plugin where
  metadata : Option PluginMeta
  middleware : Option MW
  mapPanelState : Option MapperFn
  mapAppState : Option MapperFn
  mapPanelDispatch : Option MapperFn
  mapAppDispatch : Option MapperFn
  getRouteProps : Option (List (String × PropFn))
  getPanelProps : Option PropFn
  reduceChain : Option RedFn
  reduceNode : Option RedFn
  addSocketsConstants : Option ConstFn
  decoratePlugin : Option (List (String × DecFn))

/-- A plugin with no exports at all. -/
def Plugin.empty : Plugin :=
  ⟨none, none, none, none, none, none, none, none, none, none, none, none⟩

/-- One mount point's connector: the ordered state-mapper and
dispatch-mapper sequences. -/
structure Connector where
  state : List Mapper
  dispatch : List Mapper

/-- The `connectors` registry: one connector per mount point
(`App`, `Panel`). -/
structure Connectors where
  App : Connector
  Panel : Connector

/-- The plugin runtime's module-level mutable variables
(src/webapp/plugins/plugins.js lines 12-34), gathered into one explicit
state record: `plugins`, `connectors`, `metadata`, `middlewares`,
`decorated`, `pluginDecorators`, `panelPropsDecorators`,
`routePropsDecorators`, the two reducer-decorator lists behind
`reducersDecorators`, and `extendConstants.sockets`. String-keyed JS
objects become ordered association lists. -/
structure RuntimeState where
  plugins : List Plugin
  connectors : Connectors
  metadata : List (String × PluginMeta)
  middlewares : List MW
  decorated : List (String × JSVal)
  pluginDecorators : List (String × List DecFn)
  panelPropsDecorators : List PropFn
  routePropsDecorators : List (String × List PropFn)
  chainReducers : List RedFn
  nodeReducers : List RedFn
  extendConstantsSockets : List ConstFn

/-- The runtime state at module evaluation: `metadata`, `decorated`,
`pluginDecorators` (and the other caches) start out empty. -/
def initialRuntimeState : RuntimeState :=
  ⟨[], ⟨⟨[], []⟩, ⟨[], []⟩⟩, [], [], [], [], [], [], [], [], []⟩

/-- `m[key] = v` on a string-keyed JS object as an association list:
an existing key is overwritten in place, a new key appended. -/
def assocSet {α : Type} (l : List (String × α)) (key : String) (v : α) :
    List (String × α) :=
  match l with
  | [] => [(key, v)]
  | (k, w) :: rest =>
      if k = key then (k, v) :: rest else (k, w) :: assocSet rest key v

/-- `if (!m[key]) m[key] = []; m[key].push(v)` on a JS object holding
arrays: append to the existing array, or create a singleton entry. -/
def assocAppend {α : Type} (l : List (String × List α)) (key : String)
    (v : α) : List (String × List α) :=
  match l with
  | [] => [(key, [v])]
  | (k, w) :: rest =>
      if k = key then (k, w ++ [v]) :: rest
      else (k, w) :: assocAppend rest key v

/-- The source's internal-key test `key[0] === '_'` (lines 119 and 153):
true when the key's first character is an underscore; an empty key has
`key[0] === undefined` and is not internal. -/
def isInternalKey (key : String) : Bool :=
  match key.data with
  | [] => false
  | c :: _ => c == '_'

/-- The `for (let key in plugin.getRouteProps)` loop of `loadPlugins`
(src/webapp/plugins/plugins.js lines 116-125): skip underscore-prefixed
keys, append each route's decorator to its (possibly fresh) sequence. -/
def addRoutePropsEntries (entries : List (String × PropFn))
    (rpd : List (String × List PropFn)) : List (String × List PropFn) :=
  match entries with
  | [] => rpd
  | (key, fn) :: rest =>
      if isInternalKey key then addRoutePropsEntries rest rpd
      else addRoutePropsEntries rest (assocAppend rpd key fn)

/-- The `for (let key in plugin.decoratePlugin)` loop of `loadPlugins`
(src/webapp/plugins/plugins.js lines 152-167): skip underscore-prefixed
keys; on a key with no `metadata` entry, log a dependency error and
abort with the dropped flag set (the source's early `return;`) —
entries already appended for earlier keys are kept; otherwise append
the child decorator to `pluginDecorators[key]` and continue.
Returns (new pluginDecorators, dropped?, logs). -/
def processDecoratePlugin (childName : Option String)
    (entries : List (String × DecFn))
    (pd : List (String × List DecFn)) (md : List (String × PluginMeta)) :
    List (String × List DecFn) × Bool × List LogEntry :=
  match entries with
  | [] => (pd, false, [])
  | (key, fn) :: rest =>
      if isInternalKey key then processDecoratePlugin childName rest pd md
      else
        match md.lookup key with
        | none => (pd, true, [.missingDependency key childName])
        | some _ =>
            processDecoratePlugin childName rest (assocAppend pd key fn) md

/-!
The body of the `config.localPlugins.map` callback in `loadPlugins`
(src/webapp/plugins/plugins.js lines 71-171) processes one plugin:

1. metadata extraction in `try`/`catch` — on success `name` is bound and
   `metadata[pluginName]` set; on failure an error is logged and `name`
   stays `undefined`;
2. method tagging — modelled by storing the plugin `name` alongside each
   mapper registered below;
3. the conditional registry pushes, in source order: `middleware`,
   `mapPanelState`, `mapAppState`, `mapPanelDispatch`, `mapAppDispatch`,
   `getRouteProps`, `getPanelProps`, `reduceChain`, `reduceNode`,
   `addSocketsConstants`;
4. the `decoratePlugin` loop, whose missing-dependency early `return;`
   makes the callback yield `undefined` (here `none`) — note the pushes
   of step 3 have already happened by then.

The helper definitions below name these steps; `loadPlugin` assembles
them, returning (new state, `some plugin` or `none` if dropped, logs).
-/

/-- The `name` binding of the `try` block (line 76): `plugin.metadata.name`,
left `undefined` when the metadata access throws. -/
def loadPluginName (plugin : Plugin) : Option String :=
  match plugin.metadata with
  | some md => some md.name
  | none => none

/-- The `metadata[pluginName] = plugin.metadata` assignment (line 78),
skipped when the metadata access throws. -/
def loadPluginMetadata (pluginName : String) (plugin : Plugin)
    (md : List (String × PluginMeta)) : List (String × PluginMeta) :=
  match plugin.metadata with
  | some m => assocSet md pluginName m
  | none => md

/-- The `catch` block's `console.error` (lines 79-84). -/
def loadPluginMetadataLogs (pluginName : String) (plugin : Plugin) :
    List LogEntry :=
  match plugin.metadata with
  | some _ => []
  | none => [.metadataError pluginName]

/-- A conditional registry push `if (plugin.cap) list.push(plugin.cap)`. -/
def optPush {α : Type} (l : List α) (o : Option α) : List α :=
  match o with
  | some x => l ++ [x]
  | none => l

/-- A conditional connector push, wrapping the mapper function with the
`_pluginName` tag attached by the method-tagging loop (lines 86-91). -/
def optPushMapper (l : List Mapper) (o : Option MapperFn)
    (name : Option String) : List Mapper :=
  match o with
  | some f => l ++ [Mapper.mk f name]
  | none => l

/-- The `decoratePlugin` processing of one plugin (lines 150-168):
run the key loop when the export is present. -/
def loadPluginDecorators (name : Option String) (plugin : Plugin)
    (pd : List (String × List DecFn)) (md : List (String × PluginMeta)) :
    List (String × List DecFn) × Bool × List LogEntry :=
  match plugin.decoratePlugin with
  | some entries => processDecoratePlugin name entries pd md
  | none => (pd, false, [])

def loadPlugin (pluginName : String) (plugin : Plugin) (st : RuntimeState) :
    RuntimeState × Option Plugin × List LogEntry :=
  let name := loadPluginName plugin
  let md := loadPluginMetadata pluginName plugin st.metadata
  let pdStep := loadPluginDecorators name plugin st.pluginDecorators md
  ({ st with
      metadata := md
      middlewares := optPush st.middlewares plugin.middleware
      connectors :=
        ⟨⟨optPushMapper st.connectors.App.state plugin.mapAppState name,
          optPushMapper st.connectors.App.dispatch plugin.mapAppDispatch name⟩,
         ⟨optPushMapper st.connectors.Panel.state plugin.mapPanelState name,
          optPushMapper st.connectors.Panel.dispatch plugin.mapPanelDispatch
            name⟩⟩
      routePropsDecorators :=
        match plugin.getRouteProps with
        | some entries => addRoutePropsEntries entries st.routePropsDecorators
        | none => st.routePropsDecorators
      panelPropsDecorators := optPush st.panelPropsDecorators plugin.getPanelProps
      chainReducers := optPush st.chainReducers plugin.reduceChain
      nodeReducers := optPush st.nodeReducers plugin.reduceNode
      extendConstantsSockets :=
        optPush st.extendConstantsSockets plugin.addSocketsConstants
      pluginDecorators := pdStep.1 },
   if pdStep.2.1 then none else some plugin,
   loadPluginMetadataLogs pluginName plugin ++ pdStep.2.2)

/-- The `.map` phase of `loadPlugins` over the resolved plugin list:
threads the registry state through `loadPlugin` and collects each
iteration's `Option Plugin` result and logs. -/
def loadMap (resolved : List (String × Plugin)) (st : RuntimeState) :
    RuntimeState × List (Option Plugin) × List LogEntry :=
  match resolved with
  | [] => (st, [], [])
  | (nm, p) :: rest =>
      let r1 := loadPlugin nm p st
      let r2 := loadMap rest r1.1
      (r2.1, r1.2.1 :: r2.2.1, r1.2.2 ++ r2.2.2)

/-- The registry re-initialization at the top of `loadPlugins`
(src/webapp/plugins/plugins.js lines 41-66): `connectors`,
`extendConstants`, `panelPropsDecorators` (with `propsDecorators`),
`routePropsDecorators`, the reducer-decorator lists and `middlewares`
are assigned fresh empty containers. `metadata`, `decorated` and
`pluginDecorators` are NOT reassigned there. -/
def resetPerLoadRegistries (st : RuntimeState) : RuntimeState :=
  { st with
    connectors := ⟨⟨[], []⟩, ⟨[], []⟩⟩
    extendConstantsSockets := []
    panelPropsDecorators := []
    routePropsDecorators := []
    chainReducers := []
    nodeReducers := []
    middlewares := [] }

/-- `loadPlugins` (src/webapp/plugins/plugins.js lines 37-173): reset
the per-load registries, run the map phase over the resolved
`config.localPlugins`, and store `.filter(plugin => Boolean(plugin))`
of the results as the new `plugins` list. Returns the new state and the
logs emitted. `resolved` pairs each configured plugin name with the
module it resolves to. -/
def loadPlugins (resolved : List (String × Plugin)) (st0 : RuntimeState) :
    RuntimeState × List LogEntry :=
  let r := loadMap resolved (resetPerLoadRegistries st0)
  ({ r.1 with plugins := r.2.1.filterMap id }, r.2.2)

/-- `CONNECT_SOCKET` from the socket event catalog
(src/webapp/store/constants/sockets.js). -/
def CONNECT_SOCKET : String := "CONNECT_SOCKET"

/-- `DISCONNECT_SOCKET` from the socket event catalog. -/
def DISCONNECT_SOCKET : String := "DISCONNECT_SOCKET"

/-- Modelled from the spec: the Chain Constants Namespace "defines the
action identifier for chain tip updated" (§2); its module
`src/webapp/store/constants/chain.js` is not part of this slice. The
identifier is an opaque stable string, given its symbolic name here. -/
def SET_CHAIN_TIP : String := "SET_CHAIN_TIP"

/-- The default socket listener table
(src/webapp/store/constants/sockets.js lines 6-11):
`[{ event: 'new block', actionType: SET_CHAIN_TIP }]`. -/
def socketsListeners : JSVal :=
  .arr [.obj [("event", .str "new block"), ("actionType", .str SET_CHAIN_TIP)]]

/-- The sockets namespace object as produced by
`import * as sockets from './sockets'`: its three exported bindings. -/
def socketsNamespace : JSVal :=
  .obj [("CONNECT_SOCKET", .str CONNECT_SOCKET),
        ("DISCONNECT_SOCKET", .str DISCONNECT_SOCKET),
        ("listeners", socketsListeners)]

/-- Modelled from the spec: the chain namespace object
(src/webapp/store/constants/chain.js is not in this slice) exposing the
chain-tip-updated identifier. -/
def chainNamespace : JSVal := .obj [("SET_CHAIN_TIP", .str SET_CHAIN_TIP)]

/-- Modelled from the spec: the node namespace, "referenced, not
detailed" (§2); its module is not in this slice. -/
def nodeNamespace : JSVal := .obj []

/-- Modelled from the spec: the plugin constants namespace, "referenced,
not detailed" (§2); its module is not in this slice. -/
def pluginsNamespace : JSVal := .obj []

/-- Modelled from the spec: the theme/style namespace, "referenced, not
detailed" (§2); its module is not in this slice. -/
def themeNamespace : JSVal := .obj []

/-- The constants registry (src/webapp/store/constants/index.js):
`{ chain, node, plugins, sockets, theme }`; any other property read
yields `undefined`. -/
def constantsRegistry (name : String) : JSVal :=
  if name = "chain" then chainNamespace
  else if name = "node" then nodeNamespace
  else if name = "plugins" then pluginsNamespace
  else if name = "sockets" then socketsNamespace
  else if name = "theme" then themeNamespace
  else (.undef)

/-- The `extendConstants[name]` property read: after `loadPlugins` only
the `sockets` key exists (src/webapp/plugins/plugins.js lines 47-49). -/
def extendConstantsLookup (st : RuntimeState) (name : String) :
    Option (List ConstFn) :=
  if name = "sockets" then some st.extendConstantsSockets else none

/-- `getConstants` (src/webapp/plugins/plugins.js lines 175-180): fold
the registered transforms left-to-right over `constants[name]`. When
`extendConstants[name]` is `undefined`, the `.reduce` property access
throws a `TypeError` (modelled as an `Except.error`). -/
def getConstants (st : RuntimeState) (name : String) : Except JSVal JSVal :=
  match extendConstantsLookup st name with
  | none => .error (.str "TypeError")
  | some fns => .ok (fns.foldl (fun acc f => f acc) (constantsRegistry name))

/-- Modelled from the spec: the Props-Reduction Utility
`propsReducerCallback` (§4.5; `src/webapp/plugins/utils.js` is not in
this slice). It yields a fold step that invokes one decorator with
`(parentProps, accumulatedProps, ...extraArgs)`, merges the returned
partial-props object into the accumulator, and isolates failures: if
the decorator throws or returns a non-object, the error is reported
with plugin attribution and the accumulator is returned unchanged. -/
def propsReducerCallback (_name : String) (parentProps : JSVal)
    (fnArgs : List JSVal) (acc : JSVal) (dec : PropFn) : JSVal :=
  match dec parentProps acc fnArgs with
  | .error _ => acc
  | .ok v => if v.isObjectLike then objAssign acc v else acc

/-- The `propsDecorators[name]` property read: after `loadPlugins` only
the `getPanelProps` key exists (src/webapp/plugins/plugins.js
lines 53-55). -/
def propsDecoratorsLookup (st : RuntimeState) (name : String) :
    Option (List PropFn) :=
  if name = "getPanelProps" then some st.panelPropsDecorators else none

/-- `getProps` (src/webapp/plugins/plugins.js lines 198-202): fold the
named decorator sequence with the props-reduction callback, starting
from `Object.assign({}, props)`. An unregistered `name` makes the
`.reduce` access throw. -/
def getProps (st : RuntimeState) (name : String) (parentProps : JSVal)
    (props : JSVal) (fnArgs : List JSVal) : Except JSVal JSVal :=
  match propsDecoratorsLookup st name with
  | none => .error (.str "TypeError")
  | some l =>
      .ok (l.foldl (propsReducerCallback name parentProps fnArgs)
        (objAssign (.obj []) props))

/-- `getPanelProps` (src/webapp/plugins/plugins.js lines 204-206). -/
def getPanelProps (st : RuntimeState) (parentProps props : JSVal) :
    Except JSVal JSVal :=
  getProps st "getPanelProps" parentProps props []

/-- `getRouteProps` (src/webapp/plugins/plugins.js lines 208-214):
`undefined` in `routePropsDecorators[name]` short-circuits to
`parentProps`; otherwise the registered sequence is folded with the
props-reduction callback starting from `Object.assign({}, props)`. -/
def getRouteProps (st : RuntimeState) (name : String) (parentProps : JSVal)
    (props : JSVal) (fnArgs : List JSVal) : JSVal :=
  match st.routePropsDecorators.lookup name with
  | none => parentProps
  | some l =>
      l.foldl (propsReducerCallback name parentProps fnArgs)
        (objAssign (.obj []) props)

/-- seamless-immutable's `Immutable(v)`: a deeply-frozen structure
deep-equal to `v`. At the value level of this embedding (which does not
track mutability flags) it is the identity. -/
def Immutable (v : JSVal) : JSVal := v

/-- The `reducersDecorators[name]` property read: only `chainReducer`
and `nodeReducer` exist (src/webapp/plugins/plugins.js lines 61-64). -/
def reducersDecoratorsLookup (st : RuntimeState) (name : String) :
    Option (List RedFn) :=
  if name = "chainReducer" then some st.chainReducers
  else if name = "nodeReducer" then some st.nodeReducers
  else none

/-- `decorateReducer` (src/webapp/plugins/plugins.js lines 217-220):
the returned reducer runs the base reducer, wraps its result with
`Immutable`, then folds the registered decorators over it, each
receiving `(state_, action)`. An unregistered `name` makes the
`.reduce` access throw. -/
def decorateReducer (st : RuntimeState) (reducer : RedFn) (name : String)
    (state action : JSVal) : Except JSVal JSVal :=
  match reducersDecoratorsLookup st name with
  | none => .error (.str "TypeError")
  | some l =>
      .ok (l.foldl (fun state_ reducer_ => reducer_ state_ action)
        (Immutable (reducer state action)))

/-- The inner `nextMiddleware` closure of `pluginMiddleware`
(src/webapp/plugins/plugins.js lines 185-188):
`remaining[0](store)(nextMiddleware(remaining.slice(1)))(action_)` while
middleware remains, `next(action_)` when the list is exhausted. Stated
polymorphically over the store, action and result types, as the
untyped source is. -/
def nextMiddleware {σ α ρ : Type} (store : σ) (next : α → ρ) :
    List (σ → (α → ρ) → α → ρ) → α → ρ
  | [], a => next a
  | m :: rest, a => m store (nextMiddleware store next rest) a

/-- `pluginMiddleware` (src/webapp/plugins/plugins.js lines 184-190)
applied to an explicit middleware list: dispatching `action` enters
`nextMiddleware(middlewares)(action)`. -/
def pluginMiddleware {σ α ρ : Type}
    (middlewares : List (σ → (α → ρ) → α → ρ)) (store : σ) (next : α → ρ)
    (action : α) : ρ :=
  nextMiddleware store next middlewares action

/-- The runtime's `pluginMiddleware` export reads the module-level
`middlewares` registry; here the state is passed explicitly. -/
def pluginMiddlewareJS (st : RuntimeState) :
    JSVal → (JSVal → JSVal) → JSVal → JSVal :=
  fun store next action => pluginMiddleware st.middlewares store next action

/-- `initialMetadata` (src/webapp/plugins/plugins.js line 402): returns
the accumulated metadata mapping as-is. -/
def initialMetadata (st : RuntimeState) : List (String × PluginMeta) :=
  st.metadata

/-- `Number.prototype.toFixed(2)` for the nonnegative magnitudes the
footer displays, on an exact-rational idealization of the numeric
pipeline: round to the nearest hundredth — on a tie ECMA-262 picks the
larger candidate, i.e. half-up for nonnegative values — then print with
exactly two digits after the decimal point. -/
def toFixed2 (x : ℚ) : String :=
  let n : Int := Int.floor (x * 100 + 1 / 2)
  let nn : Nat := n.toNat
  let whole : Nat := nn / 100
  let frac : Nat := nn % 100
  toString whole ++ "." ++ (if frac < 10 then "0" else "") ++ toString frac

/-- The sync text the Footer Display Component renders
(src/webapp/components/Footer/Footer.js lines 18 and 32-34):
`progressPercentage = progress * 100` followed by
`progressPercentage.toFixed(2)` and the literal suffix `% synced`. -/
def footerSyncText (progress : ℚ) : String :=
  toFixed2 (progress * 100) ++ "% synced"

/-- Test fixture: a state/dispatch mapper that always throws. -/
def throwingMapper : Mapper := ⟨fun _ _ => .error (.str "boom"), some "thrower"⟩

/-- Test fixture: a mapper that returns a non-object number. -/
def badReturnMapper : Mapper := ⟨fun _ _ => .ok (.num 5), some "badret"⟩

/-- Test fixture: a nonempty object accumulator. -/
def accObj : JSVal := .obj [("a", .num 1)]

/-- Test fixture: a container `stateFn` returning an object. -/
def stateFnObj : JSVal → JSVal := fun _ => .obj [("base", .num 0)]

/-- Test fixture: a pass-through middleware. -/
def mwId : MW := fun _ next a => next a

/-- Test fixture: an identity child decorator for `decoratePlugin`. -/
def decId : DecFn := fun c => c

/-- Test fixture: a mapper function returning an empty object. -/
def mapFnObj : MapperFn := fun _ _ => .ok (.obj [])

/-- Test fixture: a prop decorator returning an empty object. -/
def propFnObj : PropFn := fun _ _ _ => .ok (.obj [])

/-- Test fixture: an identity reducer decorator. -/
def redFnId : RedFn := fun s _ => s

/-- Test fixture: an identity constants transform. -/
def constFnId : ConstFn := fun ns => ns

/-- Test fixture: a plugin carrying a middleware whose `decoratePlugin`
references the never-loaded plugin name `ghost`. -/
def pDrop : Plugin :=
  { Plugin.empty with
      middleware := some mwId
      decoratePlugin := some [("ghost", decId)] }

/-- Test fixture: a plugin exporting every capability, whose
`decoratePlugin` references the never-loaded plugin name `ghost`. -/
def pFull : Plugin :=
  ⟨some ⟨"full", "1.0"⟩, some mwId, some mapFnObj, some mapFnObj,
   some mapFnObj, some mapFnObj, some [("home", propFnObj)], some propFnObj,
   some redFnId, some redFnId, some constFnId, some [("ghost", decId)]⟩

/-- Test fixture: a runtime state carrying one entry in each of the
load-surviving caches (`metadata`, `decorated`, `pluginDecorators`). -/
def stPD : RuntimeState :=
  { initialRuntimeState with
      metadata := [("aplug", ⟨"aplug", "1.0"⟩)]
      decorated := [("App", .str "cachedApp")]
      pluginDecorators := [("aplug", [decId])] }

/-- Test fixture: a chain-reducer decorator that sets key `k` to `v`. -/
def dSetK : RedFn := fun _ _ => .obj [("k", .str "v")]

/-- Test fixture: a base reducer producing a different value at `k`. -/
def baseOther : RedFn := fun _ _ => .obj [("k", .str "other")]

/-- Test fixture: a state with exactly one chain-reducer decorator. -/
def stChain1 : RuntimeState :=
  { initialRuntimeState with chainReducers := [dSetK] }

/-- Test fixture: the socket listener entry `{event:"x", actionType:"Y"}`. -/
def newSocketEntry : JSVal :=
  .obj [("event", .str "x"), ("actionType", .str "Y")]

/-- Test fixture: a sockets transform appending `newSocketEntry` to the
namespace's `listeners`. -/
def tAppend : ConstFn := fun ns =>
  ns.setField "listeners" ((ns.getFieldD "listeners").arrPush newSocketEntry)

/-- Test fixture: a state with exactly one sockets transform. -/
def stSock1 : RuntimeState :=
  { initialRuntimeState with extendConstantsSockets := [tAppend] }

/-- Test fixture: a middleware that records `tag` in a trace and calls
the next middleware. -/
def tagMiddleware {σ α : Type} (tag : String) :
    σ → (α → List String) → α → List String :=
  fun _ next a => tag :: next a

/-- Helper: a `foldlM` in `Except` whose steps all return `Except.ok`
computes the plain `foldl` and never produces an error. -/
theorem exceptFoldlM_ok {ε α β : Type} (f : α → β → α) (l : List β) :
    ∀ a : α,
      List.foldlM (fun acc b => (Except.ok (f acc b) : Except ε α)) a l
        = Except.ok (l.foldl f a) := by
  induction l with
  | nil => intro a; rfl
  | cons x xs ih =>
      intro a
      rw [List.foldlM_cons, List.foldl_cons]
      exact ih (f a x)

/-- Helper: the source's step guard `ret.falsy || ret.typeof != "object"`
is the negation of `isObjectLike`. -/
theorem step_guard_eq_not_isObjectLike (v : JSVal) :
    (v.falsy || v.typeof != "object") = !v.isObjectLike := by
  unfold JSVal.isObjectLike
  cases h : v.falsy with
  | true => simp [h]
  | false => simp [h]; rfl

/-- Helper: the state step when the mapper throws: `ret` keeps the prior
accumulator, which survives exactly when it is a truthy object. -/
theorem connectStateStep_error (x acc : JSVal) (m : Mapper) (e : JSVal)
    (he : m.fn x acc = .error e) :
    connectStateStep x acc m = if acc.isObjectLike then acc else .undef := by
  unfold connectStateStep
  rw [he]
  simp only [step_guard_eq_not_isObjectLike]
  cases h : acc.isObjectLike <;> simp [h]

/-- Helper: the state step when the mapper returns `v` without throwing. -/
theorem connectStateStep_ok (x acc v : JSVal) (m : Mapper)
    (he : m.fn x acc = .ok v) :
    connectStateStep x acc m = if v.isObjectLike then v else .undef := by
  unfold connectStateStep
  rw [he]
  simp only [step_guard_eq_not_isObjectLike]
  cases h : v.isObjectLike <;> simp [h]

/-- Helper: the dispatch step when the mapper throws. -/
theorem connectDispatchStep_error (x acc : JSVal) (m : Mapper) (e : JSVal)
    (he : m.fn x acc = .error e) :
    connectDispatchStep x acc m
      = if acc.isObjectLike then acc else .undef := by
  unfold connectDispatchStep
  rw [he]
  simp only [step_guard_eq_not_isObjectLike]
  cases h : acc.isObjectLike <;> simp [h]

/-- Helper: the dispatch step when the mapper returns `v`. -/
theorem connectDispatchStep_ok (x acc v : JSVal) (m : Mapper)
    (he : m.fn x acc = .ok v) :
    connectDispatchStep x acc m = if v.isObjectLike then v else .undef := by
  unfold connectDispatchStep
  rw [he]
  simp only [step_guard_eq_not_isObjectLike]
  cases h : v.isObjectLike <;> simp [h]

/-- Helper: the state step's logs when the mapper throws. -/
theorem connectStateStepLogs_error (mount : String) (x acc : JSVal)
    (m : Mapper) (e : JSVal) (he : m.fn x acc = .error e) :
    connectStateStepLogs mount x acc m
      = if acc.isObjectLike then [.mapperThrew mount m.pluginName]
        else [.mapperThrew mount m.pluginName,
              .mapperBadReturn mount m.pluginName] := by
  unfold connectStateStepLogs
  rw [he]
  simp only [step_guard_eq_not_isObjectLike]
  cases h : acc.isObjectLike <;> simp [h]

/-- Helper: the state step's logs on a non-object return. -/
theorem connectStateStepLogs_ok_bad (mount : String) (x acc v : JSVal)
    (m : Mapper) (he : m.fn x acc = .ok v) (hv : v.isObjectLike = false) :
    connectStateStepLogs mount x acc m
      = [.mapperBadReturn mount m.pluginName] := by
  unfold connectStateStepLogs
  rw [he]
  simp only [step_guard_eq_not_isObjectLike]
  simp [hv]

/-- Helper: the dispatch step's logs when the mapper throws. -/
theorem connectDispatchStepLogs_error (mount : String) (x acc : JSVal)
    (m : Mapper) (e : JSVal) (he : m.fn x acc = .error e) :
    connectDispatchStepLogs mount x acc m
      = if acc.isObjectLike then [.mapperThrew mount m.pluginName]
        else [.mapperThrew mount m.pluginName,
              .mapperBadReturn mount m.pluginName] := by
  unfold connectDispatchStepLogs
  rw [he]
  simp only [step_guard_eq_not_isObjectLike]
  cases h : acc.isObjectLike <;> simp [h]

/-- Helper: the dispatch step's logs on a non-object return. -/
theorem connectDispatchStepLogs_ok_bad (mount : String) (x acc v : JSVal)
    (m : Mapper) (he : m.fn x acc = .ok v) (hv : v.isObjectLike = false) :
    connectDispatchStepLogs mount x acc m
      = [.mapperBadReturn mount m.pluginName] := by
  unfold connectDispatchStepLogs
  rw [he]
  simp only [step_guard_eq_not_isObjectLike]
  simp [hv]

/-- Claim C1: a state mapper that throws during `connect`'s state
derivation does not propagate the exception to the caller of the
derived state function (the whole derivation returns `Except.ok`), and
— provided the accumulator before the throwing mapper is an object —
the fold resumes over the remaining mappers from exactly that prior
accumulator: the throwing mapper's contribution is dropped, not
merged. -/
theorem connect_throwing_state_mapper_dropped
    (stateFn : JSVal → JSVal) (pre post : List Mapper) (m : Mapper)
    (state e : JSVal)
    (hthrow : m.fn state (deriveState stateFn pre state) = .error e)
    (hobj : (deriveState stateFn pre state).isObjectLike = true) :
    deriveStateE stateFn (pre ++ m :: post) state
      = .ok (List.foldl (connectStateStep state)
          (deriveState stateFn pre state) post) := by
  have hstep : connectStateStep state (deriveState stateFn pre state) m
      = deriveState stateFn pre state := by
    rw [connectStateStep_error _ _ _ _ hthrow, if_pos]
    exact hobj
  unfold deriveStateE
  rw [exceptFoldlM_ok]
  congr 1
  rw [List.foldl_append, List.foldl_cons]
  show List.foldl _
      (connectStateStep state (deriveState stateFn pre state) m) post = _
  rw [hstep]

/-- Witness for C1: a concrete throwing mapper over an object
accumulator supplied by the container's `stateFn`. -/
theorem connect_throwing_state_mapper_dropped_witness :
    deriveStateE stateFnObj ([] ++ throwingMapper :: []) .undef
      = .ok (List.foldl (connectStateStep .undef)
          (deriveState stateFnObj [] .undef) []) :=
  connect_throwing_state_mapper_dropped stateFnObj [] [] throwingMapper
    .undef (.str "boom") rfl rfl

/-- Counterexample to claim C2 as stated: a throwing mapper whose
accumulator is an object makes the fold step yield that accumulator —
not `undefined`. -/
theorem connect_step_throw_yields_acc_cex :
    throwingMapper.fn .undef accObj = .error (.str "boom") ∧
    connectStateStep .undef accObj throwingMapper = accObj ∧
    accObj ≠ .undef := by
  refine ⟨rfl, rfl, ?_⟩
  intro h
  exact JSVal.noConfusion h

/-- Claim C2, amended: for every state or dispatch mapper invoked by
`connect`'s derivations, (a) a throwing mapper logs an attributed error
and the step yields the prior accumulator when that accumulator is a
truthy object, `undefined` otherwise (with a second attributed log);
(b) a mapper returning a non-object without throwing logs an attributed
error and the step yields `undefined`. Only case (b) — and case (a)
with a non-object accumulator — hands `undefined` to the following
mappers. -/
theorem connect_step_failure_modes (mount : String) (x acc : JSVal)
    (m : Mapper) :
    (∀ e, m.fn x acc = .error e →
      connectStateStep x acc m = (if acc.isObjectLike then acc else .undef) ∧
      connectDispatchStep x acc m
        = (if acc.isObjectLike then acc else .undef) ∧
      LogEntry.mapperThrew mount m.pluginName
        ∈ connectStateStepLogs mount x acc m ∧
      LogEntry.mapperThrew mount m.pluginName
        ∈ connectDispatchStepLogs mount x acc m) ∧
    (∀ v, m.fn x acc = .ok v → v.isObjectLike = false →
      connectStateStep x acc m = .undef ∧
      connectDispatchStep x acc m = .undef ∧
      connectStateStepLogs mount x acc m
        = [.mapperBadReturn mount m.pluginName] ∧
      connectDispatchStepLogs mount x acc m
        = [.mapperBadReturn mount m.pluginName]) := by
  constructor
  · intro e he
    refine ⟨connectStateStep_error x acc m e he,
            connectDispatchStep_error x acc m e he, ?_, ?_⟩
    · rw [connectStateStepLogs_error mount x acc m e he]
      cases h : acc.isObjectLike <;> simp
    · rw [connectDispatchStepLogs_error mount x acc m e he]
      cases h : acc.isObjectLike <;> simp
  · intro v he hv
    refine ⟨?_, ?_, connectStateStepLogs_ok_bad mount x acc v m he hv,
            connectDispatchStepLogs_ok_bad mount x acc v m he hv⟩
    · rw [connectStateStep_ok x acc v m he, if_neg]
      simp [hv]
    · rw [connectDispatchStep_ok x acc v m he, if_neg]
      simp [hv]

/-- Witness for the amended C2 at a concrete non-object-returning
mapper. -/
theorem connect_step_failure_modes_witness :
    connectStateStep .undef (JSVal.obj []) badReturnMapper = .undef ∧
    connectDispatchStep .undef (JSVal.obj []) badReturnMapper = .undef ∧
    connectStateStepLogs "Panel" .undef (JSVal.obj []) badReturnMapper
      = [.mapperBadReturn "Panel" badReturnMapper.pluginName] ∧
    connectDispatchStepLogs "Panel" .undef (JSVal.obj []) badReturnMapper
      = [.mapperBadReturn "Panel" badReturnMapper.pluginName] :=
  (connect_step_failure_modes "Panel" .undef (JSVal.obj [])
    badReturnMapper).2 (.num 5) rfl rfl

/-- Helper: the `decoratePlugin` key loop drops the plugin (early
`return;`) and logs a dependency error whenever some non-underscore key
in the export has no `metadata` entry. -/
theorem processDecoratePlugin_dropped (cn : Option String) :
    ∀ (entries : List (String × DecFn)) (pd : List (String × List DecFn))
      (md : List (String × PluginMeta)) (k : String) (f : DecFn),
      (k, f) ∈ entries → isInternalKey k = false → md.lookup k = none →
      (processDecoratePlugin cn entries pd md).2.1 = true ∧
      ∃ dep, LogEntry.missingDependency dep cn
        ∈ (processDecoratePlugin cn entries pd md).2.2 := by
  intro entries
  induction entries with
  | nil =>
      intro pd md k f hmem _ _
      exact absurd hmem (List.not_mem_nil _)
  | cons hd tl ih =>
      intro pd md k f hmem hus hmd
      obtain ⟨key, fn⟩ := hd
      by_cases hks : isInternalKey key = true
      · have htl : (k, f) ∈ tl := by
          rcases List.mem_cons.mp hmem with heq | htl
          · exfalso
            rw [Prod.mk.injEq] at heq
            rw [heq.1] at hus
            rw [hus] at hks
            exact Bool.false_ne_true hks
          · exact htl
        have h := ih pd md k f htl hus hmd
        simpa [processDecoratePlugin, hks] using h
      · have hks' : isInternalKey key = false := by
          cases h : isInternalKey key
          · rfl
          · exact absurd h hks
        cases hl : md.lookup key with
        | none =>
            constructor
            · simp [processDecoratePlugin, hks', hl]
            · exact ⟨key, by simp [processDecoratePlugin, hks', hl]⟩
        | some m' =>
            have htl : (k, f) ∈ tl := by
              rcases List.mem_cons.mp hmem with heq | htl
              · exfalso
                rw [Prod.mk.injEq] at heq
                rw [heq.1] at hmd
                rw [hl] at hmd
                exact Option.noConfusion hmd
              · exact htl
            have h := ih (assocAppend pd key fn) md k f htl hus hmd
            simpa [processDecoratePlugin, hks', hl] using h

/-- Helper: the map phase distributes over list append — the second
stretch of plugins is processed in the state the first stretch
produced, and results and logs concatenate. -/
theorem loadMap_append (l1 l2 : List (String × Plugin)) :
    ∀ st : RuntimeState,
      loadMap (l1 ++ l2) st
        = ((loadMap l2 (loadMap l1 st).1).1,
           (loadMap l1 st).2.1 ++ (loadMap l2 (loadMap l1 st).1).2.1,
           (loadMap l1 st).2.2 ++ (loadMap l2 (loadMap l1 st).1).2.2) := by
  induction l1 with
  | nil => intro st; simp [loadMap]
  | cons hd tl ih =>
      intro st
      obtain ⟨nm, p⟩ := hd
      simp [loadMap, ih]

/-- Claim C3: a plugin whose `decoratePlugin` export holds a
non-underscore-prefixed target key with no entry in the `metadata` map
at that point of the load yields `none` for its map iteration, so it is
excluded entirely from the resulting loaded-plugin list; a dependency
error is logged; and nothing is thrown — the dependency path of the
embedded (total) load performs only a log and an early `return;`. -/
theorem loadPlugins_missing_dependency_drops_plugin
    (pre post : List (String × Plugin)) (nm : String) (p : Plugin)
    (st0 : RuntimeState) (entries : List (String × DecFn))
    (k : String) (f : DecFn)
    (hdp : p.decoratePlugin = some entries)
    (hmem : (k, f) ∈ entries)
    (hus : isInternalKey k = false)
    (hmd : ((loadPluginMetadata nm p
        ((loadMap pre (resetPerLoadRegistries st0)).1).metadata).lookup k)
        = none) :
    (loadPlugin nm p (loadMap pre (resetPerLoadRegistries st0)).1).2.1
      = none ∧
    (∃ dep cn, LogEntry.missingDependency dep cn
      ∈ (loadPlugins (pre ++ (nm, p) :: post) st0).2) ∧
    (loadPlugins (pre ++ (nm, p) :: post) st0).1.plugins
      = (loadMap pre (resetPerLoadRegistries st0)).2.1.filterMap id
        ++ (loadMap post
            (loadPlugin nm p (loadMap pre (resetPerLoadRegistries st0)).1).1
           ).2.1.filterMap id := by
  set stPre := (loadMap pre (resetPerLoadRegistries st0)).1 with hstPre
  have hdrop := processDecoratePlugin_dropped (loadPluginName p) entries
    stPre.pluginDecorators (loadPluginMetadata nm p stPre.metadata) k f
    hmem hus hmd
  have hpd : loadPluginDecorators (loadPluginName p) p stPre.pluginDecorators
      (loadPluginMetadata nm p stPre.metadata)
      = processDecoratePlugin (loadPluginName p) entries
          stPre.pluginDecorators (loadPluginMetadata nm p stPre.metadata) := by
    unfold loadPluginDecorators
    rw [hdp]
  have hnone : (loadPlugin nm p stPre).2.1 = none := by
    show (if (loadPluginDecorators (loadPluginName p) p stPre.pluginDecorators
        (loadPluginMetadata nm p stPre.metadata)).2.1
      then none else some p) = none
    rw [hpd, hdrop.1]
    rfl
  have hcons : loadMap ((nm, p) :: post) stPre
      = ((loadMap post (loadPlugin nm p stPre).1).1,
         (loadPlugin nm p stPre).2.1
           :: (loadMap post (loadPlugin nm p stPre).1).2.1,
         (loadPlugin nm p stPre).2.2
           ++ (loadMap post (loadPlugin nm p stPre).1).2.2) := rfl
  have happ := loadMap_append pre ((nm, p) :: post)
    (resetPerLoadRegistries st0)
  obtain ⟨dep, hdep⟩ := hdrop.2
  have hlogmem : LogEntry.missingDependency dep (loadPluginName p)
      ∈ (loadPlugin nm p stPre).2.2 := by
    show LogEntry.missingDependency dep (loadPluginName p)
      ∈ loadPluginMetadataLogs nm p
        ++ (loadPluginDecorators (loadPluginName p) p stPre.pluginDecorators
            (loadPluginMetadata nm p stPre.metadata)).2.2
    rw [hpd]
    exact List.mem_append_right _ hdep
  refine ⟨hnone, ⟨dep, loadPluginName p, ?_⟩, ?_⟩
  · show LogEntry.missingDependency dep (loadPluginName p)
      ∈ (loadMap (pre ++ (nm, p) :: post) (resetPerLoadRegistries st0)).2.2
    rw [happ]
    rw [hstPre] at hcons
    rw [hcons]
    exact List.mem_append_right _ (List.mem_append_left _
      (hstPre ▸ hlogmem))
  · show (loadMap (pre ++ (nm, p) :: post)
        (resetPerLoadRegistries st0)).2.1.filterMap id = _
    rw [happ]
    rw [hstPre] at hcons
    rw [hcons]
    show ((loadMap pre (resetPerLoadRegistries st0)).2.1
        ++ (loadPlugin nm p stPre).2.1
           :: (loadMap post (loadPlugin nm p stPre).1).2.1).filterMap id = _
    rw [hnone, List.filterMap_append]
    simp

/-- Witness for C3: loading only `pDrop`, whose `decoratePlugin`
references the never-configured name `ghost`. -/
theorem loadPlugins_missing_dependency_drops_plugin_witness :
    (loadPlugin "pd" pDrop
      (loadMap [] (resetPerLoadRegistries initialRuntimeState)).1).2.1
      = none ∧
    (∃ dep cn, LogEntry.missingDependency dep cn
      ∈ (loadPlugins ([] ++ ("pd", pDrop) :: []) initialRuntimeState).2) ∧
    (loadPlugins ([] ++ ("pd", pDrop) :: []) initialRuntimeState).1.plugins
      = (loadMap [] (resetPerLoadRegistries initialRuntimeState)).2.1.filterMap
          id
        ++ (loadMap []
            (loadPlugin "pd" pDrop
              (loadMap [] (resetPerLoadRegistries initialRuntimeState)).1).1
           ).2.1.filterMap id :=
  loadPlugins_missing_dependency_drops_plugin [] [] "pd" pDrop
    initialRuntimeState [("ghost", decId)] "ghost" decId rfl
    (List.mem_singleton.mpr rfl) (by decide) rfl

/-- Counterexample to claim C4 as stated: loading only `pDrop` drops it
from the `plugins` list, yet its middleware remains registered in the
`middlewares` registry — the drop is not atomic. -/
theorem loadPlugins_drop_not_atomic_cex :
    (loadPlugins [("pd", pDrop)] initialRuntimeState).1.plugins = [] ∧
    (loadPlugins [("pd", pDrop)] initialRuntimeState).1.middlewares
      = [mwId] := by
  constructor <;> rfl

/-- Helper: appending under a key makes that key's list contain the new
element. -/
theorem lookup_assocAppend_self {α : Type} (l : List (String × List α))
    (k : String) (v : α) :
    ∃ w, ((assocAppend l k v).lookup k) = some w ∧ v ∈ w := by
  induction l with
  | nil =>
      refine ⟨[v], ?_, by simp⟩
      simp [assocAppend, List.lookup]
  | cons hd tl ih =>
      obtain ⟨ke, we⟩ := hd
      by_cases h : ke = k
      · subst h
        refine ⟨we ++ [v], ?_, by simp⟩
        simp [assocAppend, List.lookup]
      · obtain ⟨w, hw, hv⟩ := ih
        refine ⟨w, ?_, hv⟩
        have hbk : (k == ke) = false := by
          simp
          exact fun hkk => h hkk.symm
        simp [assocAppend, h, List.lookup, hbk]
        exact hw

/-- Helper: appending under any key preserves every element already
reachable under a (possibly different) key. -/
theorem lookup_assocAppend_preserve {α : Type} (l : List (String × List α))
    (k k' : String) (v' : α) (w : List α) (h : l.lookup k = some w) :
    ∃ w2, ((assocAppend l k' v').lookup k) = some w2 ∧ ∀ x ∈ w, x ∈ w2 := by
  induction l with
  | nil => simp [List.lookup] at h
  | cons hd tl ih =>
      obtain ⟨ke, we⟩ := hd
      by_cases hek : (k == ke) = true
      · have hwe : we = w := by simpa [List.lookup, hek] using h
        subst hwe
        by_cases hk' : ke = k'
        · subst hk'
          refine ⟨we ++ [v'], ?_, fun x hx => List.mem_append_left _ hx⟩
          simp [assocAppend, List.lookup, hek]
        · refine ⟨we, ?_, fun x hx => hx⟩
          simp [assocAppend, hk', List.lookup, hek]
      · have hek' : (k == ke) = false := by
          cases hx : (k == ke)
          · rfl
          · exact absurd hx hek
        have h' : tl.lookup k = some w := by
          simpa [List.lookup, hek'] using h
        obtain ⟨w2, hw2, hmem⟩ := ih h'
        by_cases hk' : ke = k'
        · subst hk'
          refine ⟨w, ?_, fun x hx => hx⟩
          simp [assocAppend, List.lookup, hek']
          exact h'
        · refine ⟨w2, ?_, hmem⟩
          simp [assocAppend, hk', List.lookup, hek']
          exact hw2

/-- Helper: the route-props loop preserves decorators already
registered for a route. -/
theorem addRoutePropsEntries_preserve (entries : List (String × PropFn)) :
    ∀ (rpd : List (String × List PropFn)) (rk : String) (w : List PropFn)
      (rf : PropFn),
      rpd.lookup rk = some w → rf ∈ w →
      ∃ w2, ((addRoutePropsEntries entries rpd).lookup rk) = some w2 ∧
        rf ∈ w2 := by
  induction entries with
  | nil => intro rpd rk w rf h hm; exact ⟨w, h, hm⟩
  | cons hd tl ih =>
      intro rpd rk w rf h hm
      obtain ⟨key, fn⟩ := hd
      by_cases hik : isInternalKey key = true
      · have hres := ih rpd rk w rf h hm
        simpa [addRoutePropsEntries, hik] using hres
      · have hik' : isInternalKey key = false := by
          cases h2 : isInternalKey key
          · rfl
          · exact absurd h2 hik
        obtain ⟨w1, hw1, hsub⟩ :=
          lookup_assocAppend_preserve rpd rk key fn w h
        obtain ⟨w2, hw2, hm2⟩ :=
          ih (assocAppend rpd key fn) rk w1 rf hw1 (hsub rf hm)
        refine ⟨w2, ?_, hm2⟩
        simpa [addRoutePropsEntries, hik'] using hw2

/-- Helper: a non-internal route key occurring in a plugin's
`getRouteProps` export ends up registered, with its decorator in the
route's list. -/
theorem addRoutePropsEntries_mem (entries : List (String × PropFn)) :
    ∀ (rpd : List (String × List PropFn)) (rk : String) (rf : PropFn),
      (rk, rf) ∈ entries → isInternalKey rk = false →
      ∃ w, ((addRoutePropsEntries entries rpd).lookup rk) = some w ∧
        rf ∈ w := by
  induction entries with
  | nil => intro _ _ _ hm _; exact absurd hm (List.not_mem_nil _)
  | cons hd tl ih =>
      intro rpd rk rf hm hik
      obtain ⟨key, fn⟩ := hd
      rcases List.mem_cons.mp hm with heq | htl
      · rw [Prod.mk.injEq] at heq
        obtain ⟨h1, h2⟩ := heq
        subst h1
        subst h2
        obtain ⟨w1, hw1, hm1⟩ := lookup_assocAppend_self rpd rk rf
        obtain ⟨w2, hw2, hm2⟩ :=
          addRoutePropsEntries_preserve tl (assocAppend rpd rk rf) rk w1 rf
            hw1 hm1
        refine ⟨w2, ?_, hm2⟩
        simpa [addRoutePropsEntries, hik] using hw2
      · by_cases hik2 : isInternalKey key = true
        · have hres := ih rpd rk rf htl hik
          simpa [addRoutePropsEntries, hik2] using hres
        · have hik2' : isInternalKey key = false := by
            cases h2 : isInternalKey key
            · rfl
            · exact absurd h2 hik2
          obtain ⟨w, hw, hm2⟩ := ih (assocAppend rpd key fn) rk rf htl hik
          refine ⟨w, ?_, hm2⟩
          simpa [addRoutePropsEntries, hik2'] using hw

/-- Claim C4, amended: a plugin dropped for a missing `decoratePlugin`
dependency is excluded from the `plugins` list (so its
mount-point-decoration methods are never applied), but the drop is not
atomic — the registry pushes made before the dependency check remain in
effect: its middleware, its tagged state and dispatch mappers for both
mount points, its panel and route prop decorators, its chain/node
reducer decorators, and its sockets constants transform are all present
in the post-load registries. -/
theorem loadPlugin_dropped_registry_effects
    (nm : String) (p : Plugin) (st : RuntimeState)
    (entries : List (String × DecFn)) (k : String) (f : DecFn)
    (hdp : p.decoratePlugin = some entries)
    (hmem : (k, f) ∈ entries)
    (hus : isInternalKey k = false)
    (hmd : ((loadPluginMetadata nm p st.metadata).lookup k) = none) :
    (loadPlugin nm p st).2.1 = none ∧
    (∀ mw, p.middleware = some mw →
      mw ∈ (loadPlugin nm p st).1.middlewares) ∧
    (∀ fn, p.mapPanelState = some fn →
      Mapper.mk fn (loadPluginName p)
        ∈ (loadPlugin nm p st).1.connectors.Panel.state) ∧
    (∀ fn, p.mapAppState = some fn →
      Mapper.mk fn (loadPluginName p)
        ∈ (loadPlugin nm p st).1.connectors.App.state) ∧
    (∀ fn, p.mapPanelDispatch = some fn →
      Mapper.mk fn (loadPluginName p)
        ∈ (loadPlugin nm p st).1.connectors.Panel.dispatch) ∧
    (∀ fn, p.mapAppDispatch = some fn →
      Mapper.mk fn (loadPluginName p)
        ∈ (loadPlugin nm p st).1.connectors.App.dispatch) ∧
    (∀ fn, p.getPanelProps = some fn →
      fn ∈ (loadPlugin nm p st).1.panelPropsDecorators) ∧
    (∀ fn, p.reduceChain = some fn →
      fn ∈ (loadPlugin nm p st).1.chainReducers) ∧
    (∀ fn, p.reduceNode = some fn →
      fn ∈ (loadPlugin nm p st).1.nodeReducers) ∧
    (∀ fn, p.addSocketsConstants = some fn →
      fn ∈ (loadPlugin nm p st).1.extendConstantsSockets) ∧
    (∀ rents rk rf, p.getRouteProps = some rents → (rk, rf) ∈ rents →
      isInternalKey rk = false →
      ∃ w, (((loadPlugin nm p st).1.routePropsDecorators).lookup rk)
          = some w ∧ rf ∈ w) := by
  refine ⟨?_, ?_, ?_, ?_, ?_, ?_, ?_, ?_, ?_, ?_, ?_⟩
  · have hdrop := processDecoratePlugin_dropped (loadPluginName p) entries
      st.pluginDecorators (loadPluginMetadata nm p st.metadata) k f
      hmem hus hmd
    show (if (loadPluginDecorators (loadPluginName p) p st.pluginDecorators
        (loadPluginMetadata nm p st.metadata)).2.1
      then none else some p) = none
    unfold loadPluginDecorators
    rw [hdp, hdrop.1]
    rfl
  · intro mw hmw
    show mw ∈ optPush st.middlewares p.middleware
    rw [hmw]
    simp [optPush]
  · intro fn hfn
    show Mapper.mk fn (loadPluginName p)
      ∈ optPushMapper st.connectors.Panel.state p.mapPanelState
          (loadPluginName p)
    rw [hfn]
    simp [optPushMapper]
  · intro fn hfn
    show Mapper.mk fn (loadPluginName p)
      ∈ optPushMapper st.connectors.App.state p.mapAppState (loadPluginName p)
    rw [hfn]
    simp [optPushMapper]
  · intro fn hfn
    show Mapper.mk fn (loadPluginName p)
      ∈ optPushMapper st.connectors.Panel.dispatch p.mapPanelDispatch
          (loadPluginName p)
    rw [hfn]
    simp [optPushMapper]
  · intro fn hfn
    show Mapper.mk fn (loadPluginName p)
      ∈ optPushMapper st.connectors.App.dispatch p.mapAppDispatch
          (loadPluginName p)
    rw [hfn]
    simp [optPushMapper]
  · intro fn hfn
    show fn ∈ optPush st.panelPropsDecorators p.getPanelProps
    rw [hfn]
    simp [optPush]
  · intro fn hfn
    show fn ∈ optPush st.chainReducers p.reduceChain
    rw [hfn]
    simp [optPush]
  · intro fn hfn
    show fn ∈ optPush st.nodeReducers p.reduceNode
    rw [hfn]
    simp [optPush]
  · intro fn hfn
    show fn ∈ optPush st.extendConstantsSockets p.addSocketsConstants
    rw [hfn]
    simp [optPush]
  · intro rents rk rf hgr hmem2 hik
    show ∃ w, ((match p.getRouteProps with
        | some e => addRoutePropsEntries e st.routePropsDecorators
        | none => st.routePropsDecorators).lookup rk) = some w ∧ rf ∈ w
    rw [hgr]
    exact addRoutePropsEntries_mem rents st.routePropsDecorators rk rf
      hmem2 hik

/-- Witness for the amended C4: the fully-featured `pFull` plugin is
dropped, yet its middleware and its route prop decorator remain
registered. -/
theorem loadPlugin_dropped_registry_effects_witness :
    (loadPlugin "full" pFull initialRuntimeState).2.1 = none ∧
    mwId ∈ (loadPlugin "full" pFull initialRuntimeState).1.middlewares ∧
    ∃ w, (((loadPlugin "full" pFull
        initialRuntimeState).1.routePropsDecorators).lookup "home")
        = some w ∧ propFnObj ∈ w :=
  have h := loadPlugin_dropped_registry_effects "full" pFull
    initialRuntimeState [("ghost", decId)] "ghost" decId rfl
    (List.mem_singleton.mpr rfl) (by decide) (by decide)
  ⟨h.1, h.2.1 mwId rfl,
   h.2.2.2.2.2.2.2.2.2.2 [("home", propFnObj)] "home" propFnObj rfl
     (List.mem_singleton.mpr rfl) (by decide)⟩

/-- Counterexample to claim C5 as stated: `loadPlugins` does not reset
the plugin decorator registry — an empty load leaves a pre-existing
`pluginDecorators` entry in place instead of clearing it. -/
theorem loadPlugins_pluginDecorators_not_reset_cex :
    (loadPlugins [] stPD).1.pluginDecorators = [("aplug", [decId])] ∧
    [("aplug", [decId])] ≠ ([] : List (String × List DecFn)) := by
  refine ⟨rfl, ?_⟩
  intro h
  exact List.noConfusion h

/-- Helper: overwriting-or-appending a key keeps every key's lookup
populated. -/
theorem lookup_isSome_assocSet {α : Type} (l : List (String × α))
    (k k' : String) (v : α) (h : (l.lookup k).isSome = true) :
    ((assocSet l k' v).lookup k).isSome = true := by
  induction l with
  | nil => simp [List.lookup] at h
  | cons hd tl ih =>
      obtain ⟨ke, we⟩ := hd
      by_cases hk : (k == ke) = true
      · by_cases hke : ke = k'
        · subst hke
          simp [assocSet, List.lookup, hk]
        · simp [assocSet, hke, List.lookup, hk]
      · have hk' : (k == ke) = false := by
          cases hx : (k == ke)
          · rfl
          · exact absurd hx hk
        have h' : (tl.lookup k).isSome = true := by
          simpa [List.lookup, hk'] using h
        by_cases hke : ke = k'
        · subst hke
          simpa [assocSet, List.lookup, hk'] using h'
        · have hres := ih h'
          simpa [assocSet, hke, List.lookup, hk'] using hres

/-- Helper: appending into a keyed list registry keeps every key's
lookup populated. -/
theorem lookup_isSome_assocAppend {α : Type} (l : List (String × List α))
    (k k' : String) (v : α) (h : (l.lookup k).isSome = true) :
    ((assocAppend l k' v).lookup k).isSome = true := by
  induction l with
  | nil => simp [List.lookup] at h
  | cons hd tl ih =>
      obtain ⟨ke, we⟩ := hd
      by_cases hk : (k == ke) = true
      · by_cases hke : ke = k'
        · subst hke
          simp [assocAppend, List.lookup, hk]
        · simp [assocAppend, hke, List.lookup, hk]
      · have hk' : (k == ke) = false := by
          cases hx : (k == ke)
          · rfl
          · exact absurd hx hk
        have h' : (tl.lookup k).isSome = true := by
          simpa [List.lookup, hk'] using h
        by_cases hke : ke = k'
        · subst hke
          simpa [assocAppend, List.lookup, hk'] using h'
        · have hres := ih h'
          simpa [assocAppend, hke, List.lookup, hk'] using hres

/-- Helper: the `decoratePlugin` loop only ever appends to
`pluginDecorators`, so populated keys stay populated. -/
theorem processDecoratePlugin_pd_isSome (cn : Option String) :
    ∀ (entries : List (String × DecFn)) (pd : List (String × List DecFn))
      (md : List (String × PluginMeta)) (k : String),
      ((pd.lookup k).isSome = true) →
      (((processDecoratePlugin cn entries pd md).1).lookup k).isSome
        = true := by
  intro entries
  induction entries with
  | nil =>
      intro pd md k h
      simpa [processDecoratePlugin] using h
  | cons hd tl ih =>
      intro pd md k h
      obtain ⟨key, fn⟩ := hd
      by_cases hik : isInternalKey key = true
      · have hres := ih pd md k h
        simpa [processDecoratePlugin, hik] using hres
      · have hik' : isInternalKey key = false := by
          cases h2 : isInternalKey key
          · rfl
          · exact absurd h2 hik
        cases hl : md.lookup key with
        | none => simpa [processDecoratePlugin, hik', hl] using h
        | some m' =>
            have hres := ih (assocAppend pd key fn) md k
              (lookup_isSome_assocAppend pd k key fn h)
            simpa [processDecoratePlugin, hik', hl] using hres

/-- Helper: one load iteration never touches the `decorated` cache. -/
theorem loadPlugin_decorated (nm : String) (p : Plugin) (st : RuntimeState) :
    (loadPlugin nm p st).1.decorated = st.decorated := rfl

/-- Helper: one load iteration keeps populated `metadata` keys
populated. -/
theorem loadPlugin_metadata_isSome (nm : String) (p : Plugin)
    (st : RuntimeState) (k : String)
    (h : (st.metadata.lookup k).isSome = true) :
    (((loadPlugin nm p st).1.metadata).lookup k).isSome = true := by
  show ((loadPluginMetadata nm p st.metadata).lookup k).isSome = true
  unfold loadPluginMetadata
  cases p.metadata with
  | none => exact h
  | some m => exact lookup_isSome_assocSet st.metadata k nm m h

/-- Helper: one load iteration keeps populated `pluginDecorators` keys
populated. -/
theorem loadPlugin_pluginDecorators_isSome (nm : String) (p : Plugin)
    (st : RuntimeState) (k : String)
    (h : (st.pluginDecorators.lookup k).isSome = true) :
    (((loadPlugin nm p st).1.pluginDecorators).lookup k).isSome = true := by
  show (((loadPluginDecorators (loadPluginName p) p st.pluginDecorators
      (loadPluginMetadata nm p st.metadata)).1).lookup k).isSome = true
  unfold loadPluginDecorators
  cases p.decoratePlugin with
  | none => exact h
  | some entries =>
      exact processDecoratePlugin_pd_isSome (loadPluginName p) entries
        st.pluginDecorators (loadPluginMetadata nm p st.metadata) k h

/-- Helper: the map phase never touches the `decorated` cache. -/
theorem loadMap_decorated (resolved : List (String × Plugin)) :
    ∀ st : RuntimeState, (loadMap resolved st).1.decorated = st.decorated := by
  induction resolved with
  | nil => intro st; rfl
  | cons hd tl ih =>
      intro st
      obtain ⟨nm, p⟩ := hd
      show (loadMap tl (loadPlugin nm p st).1).1.decorated = st.decorated
      rw [ih (loadPlugin nm p st).1, loadPlugin_decorated]

/-- Helper: the map phase keeps populated `metadata` keys populated. -/
theorem loadMap_metadata_isSome (resolved : List (String × Plugin)) :
    ∀ (st : RuntimeState) (k : String),
      (st.metadata.lookup k).isSome = true →
      (((loadMap resolved st).1.metadata).lookup k).isSome = true := by
  induction resolved with
  | nil => intro st k h; exact h
  | cons hd tl ih =>
      intro st k h
      obtain ⟨nm, p⟩ := hd
      exact ih (loadPlugin nm p st).1 k (loadPlugin_metadata_isSome nm p st k h)

/-- Helper: the map phase keeps populated `pluginDecorators` keys
populated. -/
theorem loadMap_pluginDecorators_isSome (resolved : List (String × Plugin)) :
    ∀ (st : RuntimeState) (k : String),
      (st.pluginDecorators.lookup k).isSome = true →
      (((loadMap resolved st).1.pluginDecorators).lookup k).isSome = true := by
  induction resolved with
  | nil => intro st k h; exact h
  | cons hd tl ih =>
      intro st k h
      obtain ⟨nm, p⟩ := hd
      exact ih (loadPlugin nm p st).1 k
        (loadPlugin_pluginDecorators_isSome nm p st k h)

/-- Claim C5, amended: `loadPlugins` resets the per-load registries —
connectors, `extendConstants`, panel and route prop decorators, chain
and node reducer decorators, and the middleware list — to empty before
processing plugins, but NOT the plugin decorator registry: like the
`decorated` component cache and the `metadata` map, `pluginDecorators`
retains the entries accumulated by earlier loads (its keys stay
populated; the load only appends to it). -/
theorem loadPlugins_reset_and_retention (st0 : RuntimeState)
    (resolved : List (String × Plugin)) :
    resetPerLoadRegistries st0
      = { st0 with
          connectors := ⟨⟨[], []⟩, ⟨[], []⟩⟩
          extendConstantsSockets := []
          panelPropsDecorators := []
          routePropsDecorators := []
          chainReducers := []
          nodeReducers := []
          middlewares := [] } ∧
    (loadPlugins resolved st0).1.decorated = st0.decorated ∧
    (∀ k, (st0.metadata.lookup k).isSome = true →
      (((loadPlugins resolved st0).1.metadata).lookup k).isSome = true) ∧
    (∀ k, (st0.pluginDecorators.lookup k).isSome = true →
      (((loadPlugins resolved st0).1.pluginDecorators).lookup k).isSome
        = true) := by
  refine ⟨rfl, ?_, ?_, ?_⟩
  · show (loadMap resolved (resetPerLoadRegistries st0)).1.decorated
      = st0.decorated
    rw [loadMap_decorated]
    rfl
  · intro k h
    exact loadMap_metadata_isSome resolved (resetPerLoadRegistries st0) k h
  · intro k h
    exact loadMap_pluginDecorators_isSome resolved
      (resetPerLoadRegistries st0) k h

/-- Witness for the amended C5: an empty reload over a state carrying
one entry in each load-surviving cache retains all three. -/
theorem loadPlugins_reset_and_retention_witness :
    (loadPlugins [] stPD).1.decorated = stPD.decorated ∧
    (((loadPlugins [] stPD).1.metadata).lookup "aplug").isSome = true ∧
    (((loadPlugins [] stPD).1.pluginDecorators).lookup "aplug").isSome
      = true :=
  ⟨(loadPlugins_reset_and_retention stPD []).2.1,
   (loadPlugins_reset_and_retention stPD []).2.2.1 "aplug" (by decide),
   (loadPlugins_reset_and_retention stPD []).2.2.2 "aplug" (by decide)⟩

/-- Claim C6: `decorateReducer(baseReducer, "chainReducer")` with zero
registered chain-reducer decorators returns the base reducer's result
wrapped as an immutable structure (deep-equal to it); with one
registered decorator that sets key `k` to `v`, the returned reducer's
result has `v` at `k` regardless of what the base reducer produced. -/
theorem decorateReducer_chain_spec
    (st0 st1 : RuntimeState) (base : RedFn) (state action : JSVal)
    (d : RedFn) (k : String) (v : JSVal)
    (h0 : st0.chainReducers = [])
    (h1 : st1.chainReducers = [d])
    (hd : ∀ s a, (d s a).getField k = some v) :
    decorateReducer st0 base "chainReducer" state action
      = .ok (Immutable (base state action)) ∧
    ∃ r, decorateReducer st1 base "chainReducer" state action = .ok r ∧
      r.getField k = some v := by
  have hl0 : reducersDecoratorsLookup st0 "chainReducer"
      = some ([] : List RedFn) := by
    unfold reducersDecoratorsLookup
    rw [if_pos rfl, h0]
  have hl1 : reducersDecoratorsLookup st1 "chainReducer" = some [d] := by
    unfold reducersDecoratorsLookup
    rw [if_pos rfl, h1]
  constructor
  · unfold decorateReducer
    rw [hl0]
    rfl
  · refine ⟨d (Immutable (base state action)) action, ?_, hd _ _⟩
    unfold decorateReducer
    rw [hl1]
    rfl

/-- Witness for C6 with a base reducer writing `"other"` at `"k"` and a
decorator overriding it with `"v"`. -/
theorem decorateReducer_chain_spec_witness :
    decorateReducer initialRuntimeState baseOther "chainReducer" .null .null
      = .ok (Immutable (baseOther .null .null)) ∧
    ∃ r, decorateReducer stChain1 baseOther "chainReducer" .null .null
        = .ok r ∧
      r.getField "k" = some (.str "v") :=
  decorateReducer_chain_spec initialRuntimeState stChain1 baseOther
    .null .null dSetK "k" (.str "v") rfl rfl (fun _ _ => rfl)

/-- Claim C7: `getConstants("sockets")` with zero registered transforms
returns the base sockets namespace unchanged; with one transform
appending `{event:"x", actionType:"Y"}` to `listeners`, the result's
`listeners` sequence is the original default entry
`{event:"new block", actionType: SET_CHAIN_TIP}` followed by the
appended entry, in that order. -/
theorem getConstants_sockets_spec
    (st0 st1 : RuntimeState) (t : ConstFn)
    (h0 : st0.extendConstantsSockets = [])
    (h1 : st1.extendConstantsSockets = [t])
    (ht : ∀ ns, t ns = ns.setField "listeners"
        ((ns.getFieldD "listeners").arrPush newSocketEntry)) :
    getConstants st0 "sockets" = .ok socketsNamespace ∧
    ∃ r, getConstants st1 "sockets" = .ok r ∧
      r.getField "listeners" = some (.arr
        [.obj [("event", .str "new block"),
               ("actionType", .str SET_CHAIN_TIP)],
         newSocketEntry]) := by
  have hl0 : extendConstantsLookup st0 "sockets"
      = some ([] : List ConstFn) := by
    unfold extendConstantsLookup
    rw [if_pos rfl, h0]
  have hl1 : extendConstantsLookup st1 "sockets" = some [t] := by
    unfold extendConstantsLookup
    rw [if_pos rfl, h1]
  constructor
  · unfold getConstants
    rw [hl0]
    rfl
  · refine ⟨t socketsNamespace, ?_, ?_⟩
    · unfold getConstants
      rw [hl1]
      show Except.ok (t (constantsRegistry "sockets"))
        = Except.ok (t socketsNamespace)
      rfl
    · rw [ht socketsNamespace]
      rfl

/-- Witness for C7 with the concrete appending transform `tAppend`. -/
theorem getConstants_sockets_spec_witness :
    getConstants initialRuntimeState "sockets" = .ok socketsNamespace ∧
    ∃ r, getConstants stSock1 "sockets" = .ok r ∧
      r.getField "listeners" = some (.arr
        [.obj [("event", .str "new block"),
               ("actionType", .str SET_CHAIN_TIP)],
         newSocketEntry]) :=
  getConstants_sockets_spec initialRuntimeState stSock1 tAppend rfl rfl
    (fun _ => rfl)

/-- Claim C8: for a route name with no registered route-prop decorators,
`getRouteProps` returns `parentProps` itself unchanged for every
`parentProps`, `props` and extra arguments — short-circuiting without
folding over `props`. -/
theorem getRouteProps_unregistered (st : RuntimeState) (name : String)
    (h : st.routePropsDecorators.lookup name = none) :
    ∀ (parentProps props : JSVal) (fnArgs : List JSVal),
      getRouteProps st name parentProps props fnArgs = parentProps := by
  intro parentProps props fnArgs
  unfold getRouteProps
  rw [h]

/-- Witness for C8 at an unregistered route, with `props` differing
from `parentProps` to exhibit the short-circuit. -/
theorem getRouteProps_unregistered_witness :
    getRouteProps initialRuntimeState "unregistered-route" (.str "parent")
      (.obj [("p", .num 7)]) [] = .str "parent" :=
  getRouteProps_unregistered initialRuntimeState "unregistered-route" rfl
    (.str "parent") (.obj [("p", .num 7)]) []

/-- Claim C9: the Footer's rendered sync text is `progress * 100`
formatted to exactly two decimal places followed by the literal suffix
`% synced`: 0.5 renders "50.00% synced", 1 renders "100.00% synced",
and 0.12345 renders "12.35% synced". -/
theorem footer_sync_text_values :
    footerSyncText (1 / 2) = "50.00% synced" ∧
    footerSyncText 1 = "100.00% synced" ∧
    footerSyncText (12345 / 100000) = "12.35% synced" := by
  refine ⟨?_, ?_, ?_⟩
  · have h1 : Int.floor ((1 : ℚ) / 2 * 100 * 100 + 1 / 2) = 5000 := by
      norm_num
    simp only [footerSyncText, toFixed2, h1]
    decide
  · have h1 : Int.floor ((1 : ℚ) * 100 * 100 + 1 / 2) = 10000 := by
      norm_num
    simp only [footerSyncText, toFixed2, h1]
    decide
  · have h1 : Int.floor ((12345 : ℚ) / 100000 * 100 * 100 + 1 / 2)
        = 1235 := by
      norm_num
    simp only [footerSyncText, toFixed2, h1]
    decide

/-- Claim C10: `pluginMiddleware` composes the middleware list so that
each middleware wraps the next — the empty chain is the underlying
`next`, and a cons chain runs its head with the composition of the tail
as its continuation — and the first-loaded middleware is outermost: a
chain of tagged middlewares yields its tags in load order, terminating
in the store's `next`. -/
theorem pluginMiddleware_composition (σ α : Type) :
    (∀ (ρ : Type) (m : σ → (α → ρ) → α → ρ)
      (mws : List (σ → (α → ρ) → α → ρ)) (store : σ) (next : α → ρ)
      (action : α),
      pluginMiddleware ([] : List (σ → (α → ρ) → α → ρ)) store next action
        = next action ∧
      pluginMiddleware (m :: mws) store next action
        = m store (fun a => pluginMiddleware mws store next a) action) ∧
    (∀ (tags : List String) (store : σ) (next : α → List String)
      (action : α),
      pluginMiddleware (tags.map tagMiddleware) store next action
        = tags ++ next action) := by
  constructor
  · intro ρ m mws store next action
    exact ⟨rfl, rfl⟩
  · intro tags store next action
    induction tags with
    | nil => rfl
    | cons t ts ih =>
        show t :: nextMiddleware store next (ts.map tagMiddleware) action
          = t :: (ts ++ next action)
        exact congrArg (fun l => t :: l) ih
